import Mathlib

/-!
Verification of the export pipeline of the Poster-Builder client
(`src/js/index.js`): the content serializer `downloadPreprocess`, the
rasterize-and-download step, and the `download` helper.

The embedding is shallow.  The DOM state read by the pipeline is collected
in `PreviewState`; browser-side effects (canvas creation, image decode,
anchor activation) are made explicit in `ExportResult`.  The one
asynchronous suspension point — decoding the generated SVG data URI as an
image — is modelled by a boolean oracle `decodeOk`: the `img.onload`
callback runs exactly when the decode succeeds, and the code installs no
`onerror` handler.  The value of `Math.random()` consumed by `download` is
passed in as a rational `rand ∈ [0, 1)`.
-/

/-- The slice of DOM state that `downloadPreprocess` reads.

* `headingText`, `descriptionText` — `previews.heading.textContent` and
  `previews.description.textContent` (JS truthiness of a string is
  non-emptiness).
* `headingAlignment`, `headingColor`, `headingFontSize` — the computed
  styles returned by `getHeadingComputedStyle`.
* `imageSrc` — `selector("#image").src`; the empty string when no image
  payload has been set.
* `dataWidth`, `dataHeight` — the `data-width` / `data-height` auxiliary
  attributes on `previews.image`, written by the `image.onload` callback
  from `image.width` / `image.height` (non-negative integers); `none` when
  the callback has not fired, in which case `previews.image.dataset.width`
  is JavaScript `undefined`.
* `containerWidth`, `containerHeight` — `#previewSection`'s `offsetWidth`
  and `offsetHeight`. -/
structure PreviewState where
  headingText : String
  headingAlignment : String
  headingColor : String
  headingFontSize : String
  imageSrc : String
  dataWidth : Option Nat
  dataHeight : Option Nat
  descriptionText : String
  containerWidth : Nat
  containerHeight : Nat
deriving Repr, DecidableEq

/-- The computed heading styles object returned by
`getHeadingComputedStyle`. -/
structure HeadingStyle where
  alignment : String
  color : String
  fontSize : String
deriving Repr, DecidableEq

/-- `getHeadingComputedStyle` (src/js/index.js:217-231): reads the computed
`text-align`, `color` and `font-size` of the heading preview. -/
def getHeadingComputedStyle (s : PreviewState) : HeadingStyle :=
  { alignment := s.headingAlignment
    color := s.headingColor
    fontSize := s.headingFontSize }

/-- Stringification of a dataset dimension when interpolated into the
image template literal: a recorded number prints as its decimal numeral,
JavaScript `undefined` prints as the string `undefined`. -/
def datasetString (d : Option Nat) : String :=
  match d with
  | some n => toString n
  | none => "undefined"

/-- The conditional `imageDimension.width > 500 ? 500 : imageDimension.width`
(src/js/index.js:174-175).  When the dataset attribute is `undefined` the
comparison is `NaN > cap`, which is false, so `undefined` flows through
unchanged; otherwise the numeric string is compared numerically. -/
def clampDim (d : Option Nat) (cap : Nat) : Option Nat :=
  match d with
  | some n => if n > cap then some cap else some n
  | none => none

/-- The heading fragment appended by the serializer
(src/js/index.js:162-166), including the source's `font-weigth` typo. -/
def headingMarkup (s : PreviewState) : String :=
  let st := getHeadingComputedStyle s
  "<h1 style=\"text-align: " ++ st.alignment ++ "; color: " ++ st.color ++
    "; font-size: " ++ st.fontSize ++ "; font-weigth: 400;\">" ++
    s.headingText ++ "</h1>"

/-- The image fragment appended by the serializer
(src/js/index.js:168-177): the clamped dataset dimensions are interpolated
into a self-closed `img` tag. -/
def imageMarkup (s : PreviewState) : String :=
  let imageWidth := clampDim s.dataWidth 500
  let imageHeight := clampDim s.dataHeight 300
  "<img src=\"" ++ s.imageSrc ++ "\" width=\"" ++ datasetString imageWidth ++
    "\" height=\"" ++ datasetString imageHeight ++
    "\" style=\"display: block; margin: 0 auto;\"/>"

/-- The paragraph fragment appended by the serializer
(src/js/index.js:179). -/
def descriptionMarkup (s : PreviewState) : String :=
  "<p style=\"white-space: pre-wrap;\">" ++ s.descriptionText ++ "</p>"

/-- The accumulation of `content` in src/js/index.js:161-179: heading,
then image, then description, each appended only when present. -/
def posterContent (s : PreviewState) : String :=
  let content := ""
  let content := if s.headingText = "" then content else content ++ headingMarkup s
  let content := if s.imageSrc = "" then content else content ++ imageMarkup s
  if s.descriptionText = "" then content else content ++ descriptionMarkup s

/-- The SVG wrapper template literal of src/js/index.js:183-191, with the
literal's exact whitespace.  `w` and `h` are `canvas.width` and
`canvas.height`. -/
def svgWrap (w h : Nat) (inner : String) : String :=
  "\n          <svg xmlns=\"http://www.w3.org/2000/svg\" style=\"background-color: white\" width=\"" ++
    toString w ++ "\" height=\"" ++ toString h ++
    "\">\n            <foreignObject width=\"100%\" height=\"100%\">\n              <div xmlns=\"http://www.w3.org/1999/xhtml\" style=\"font: 12px \x27Arial\x27; padding: 20px;\">\n                " ++
    inner ++
    "\n              </div>\n            </foreignObject>\n          </svg>\n        "

/-- The anchor handle synthesized by `download` (src/js/index.js:121-138):
it carries the generated filename, is clicked once, and is removed from
the body right after the click, so it does not remain attached. -/
structure DownloadAction where
  filename : String
  clicked : Bool
  attachedAfter : Bool
deriving Repr, DecidableEq

/-- `download` (src/js/index.js:121-138).  `rand` is the value returned by
`Math.random()`; the filename is `Poster_` + `Math.floor(rand * 100000000)`
+ `.png`.  The anchor's `href` (the PNG data URL produced by
`canvas.toDataURL()`) is an opaque bitmap encoding and is not modelled. -/
def download (rand : ℚ) : DownloadAction :=
  let filename := "Poster_" ++ toString (Int.floor (rand * 100000000)) ++ ".png"
  { filename := filename, clicked := true, attachedAfter := false }

/-- Everything observable about one run of `downloadPreprocess`:
the offscreen canvas dimensions, the generated SVG fragment (if any),
whether a decode of it was attempted, whether `drawImage` ran, whether a
raster payload was encoded by `canvas.toDataURL`, the download action (if
any), whether any error was surfaced, and the final preview state. -/
structure ExportResult where
  canvasWidth : Nat
  canvasHeight : Nat
  fragment : Option String
  decodeAttempted : Bool
  drawn : Bool
  payloadProduced : Bool
  downloadAction : Option DownloadAction
  errorSurfaced : Bool
  finalState : PreviewState
deriving Repr, DecidableEq

/-- `downloadPreprocess` (src/js/index.js:146-209).  The canvas is sized
to the preview container's width and height plus 100; the serialized
`content` is built; when it is non-empty it is wrapped in the SVG
container sized like the canvas and decoded as an image.  The `img.onload`
callback — draw to the canvas, then `download` — runs only when the decode
succeeds (`decodeOk`); no `onerror` handler exists, so a failed decode
surfaces nothing.  When `content` is empty nothing further happens. -/
def downloadPreprocess (s : PreviewState) (decodeOk : Bool) (rand : ℚ) :
    ExportResult :=
  let canvasWidth := s.containerWidth
  let canvasHeight := s.containerHeight + 100
  let content := posterContent s
  if content = "" then
    { canvasWidth := canvasWidth, canvasHeight := canvasHeight,
      fragment := none, decodeAttempted := false, drawn := false,
      payloadProduced := false, downloadAction := none,
      errorSurfaced := false, finalState := s }
  else
    let wrapped := svgWrap canvasWidth canvasHeight content
    if decodeOk then
      { canvasWidth := canvasWidth, canvasHeight := canvasHeight,
        fragment := some wrapped, decodeAttempted := true, drawn := true,
        payloadProduced := true, downloadAction := some (download rand),
        errorSurfaced := false, finalState := s }
    else
      { canvasWidth := canvasWidth, canvasHeight := canvasHeight,
        fragment := some wrapped, decodeAttempted := true, drawn := false,
        payloadProduced := false, downloadAction := none,
        errorSurfaced := false, finalState := s }

/-- A concrete preview state with every section empty, to instantiate the
theorems at a checkable input. -/
def emptyState : PreviewState :=
  { headingText := ""
    headingAlignment := "left"
    headingColor := "rgb(0, 0, 0)"
    headingFontSize := "30px"
    imageSrc := ""
    dataWidth := none
    dataHeight := none
    descriptionText := ""
    containerWidth := 600
    containerHeight := 400 }

/-- A concrete fully populated preview state with an oversized recorded
image (1000×800), to instantiate the theorems at a checkable input. -/
def fullState : PreviewState :=
  { headingText := "Hello"
    headingAlignment := "center"
    headingColor := "rgb(0, 0, 0)"
    headingFontSize := "30px"
    imageSrc := "data:image/png;base64,iVBORw0KGgo="
    dataWidth := some 1000
    dataHeight := some 800
    descriptionText := "A poster"
    containerWidth := 600
    containerHeight := 400 }

/-- A concrete preview state whose image source is set but whose dimension
dataset attributes were never recorded. -/
def noDimsState : PreviewState :=
  { fullState with dataWidth := none, dataHeight := none }

/-! ## Helper lemmas -/

theorem posterContent_eq (s : PreviewState) :
    posterContent s =
      (if s.headingText = "" then "" else headingMarkup s) ++
      (if s.imageSrc = "" then "" else imageMarkup s) ++
      (if s.descriptionText = "" then "" else descriptionMarkup s) := by
  simp only [posterContent]
  split <;> split <;> split <;>
    simp [String.append_assoc]

theorem imageMarkup_length_pos (s : PreviewState) : 0 < (imageMarkup s).length := by
  have h10 : ("<img src=\"" : String).length = 10 := rfl
  simp only [imageMarkup, String.length_append]
  omega

theorem posterContent_ne_empty_of_image (s : PreviewState) (h : s.imageSrc ≠ "") :
    posterContent s ≠ "" := by
  intro heq
  have hlen := congrArg String.length heq
  rw [posterContent_eq] at hlen
  have h0 : ("" : String).length = 0 := rfl
  simp only [String.length_append, if_neg h, h0] at hlen
  have := imageMarkup_length_pos s
  omega

theorem clampDim_some (W cap : Nat) : clampDim (some W) cap = some (min W cap) := by
  by_cases h : W > cap
  · simp [clampDim, h, Nat.min_eq_right (Nat.le_of_lt h)]
  · simp [clampDim, h, Nat.min_eq_left (Nat.le_of_not_lt h)]

theorem downloadPreprocess_fragment (s : PreviewState) (d : Bool) (r : ℚ)
    (h : posterContent s ≠ "") :
    (downloadPreprocess s d r).fragment =
      some (svgWrap s.containerWidth (s.containerHeight + 100) (posterContent s)) := by
  cases d <;> simp [downloadPreprocess, h]

theorem downloadPreprocess_finalState (s : PreviewState) (d : Bool) (r : ℚ) :
    (downloadPreprocess s d r).finalState = s := by
  by_cases h : posterContent s = "" <;> cases d <;> simp [downloadPreprocess, h]

theorem int_toString_toNat (i : Int) (h : 0 ≤ i) : toString i = toString i.toNat := by
  lift i to ℕ using h
  rw [Int.toNat_natCast]
  rfl

theorem fragment_decomp (s : PreviewState) (d : Bool) (r : ℚ)
    (hne : posterContent s ≠ "") (x y z : String)
    (hsplit : posterContent s = x ++ (y ++ z)) :
    (downloadPreprocess s d r).fragment =
      some (("\n          <svg xmlns=\"http://www.w3.org/2000/svg\" style=\"background-color: white\" width=\"" ++
          toString s.containerWidth ++ "\" height=\"" ++
          toString (s.containerHeight + 100) ++
          "\">\n            <foreignObject width=\"100%\" height=\"100%\">\n              <div xmlns=\"http://www.w3.org/1999/xhtml\" style=\"font: 12px \x27Arial\x27; padding: 20px;\">\n                " ++
          x) ++ y ++
        (z ++ "\n              </div>\n            </foreignObject>\n          </svg>\n        ")) := by
  rw [downloadPreprocess_fragment s d r hne, hsplit]
  simp [svgWrap, String.append_assoc]

/-! ## Claims -/

/-- C1: for every image with recorded natural width `W` and height `H`
(read from the auxiliary data attributes, as numbers), the image element
emitted into the serializer's fragment has width attribute `min W 500` and
height attribute `min H 300`. -/
theorem C1_image_dims_clamped (s : PreviewState) (d : Bool) (r : ℚ)
    (W H : Nat) (hsrc : s.imageSrc ≠ "") (hW : s.dataWidth = some W)
    (hH : s.dataHeight = some H) :
    ∃ pre post, (downloadPreprocess s d r).fragment =
      some (pre ++ ("<img src=\"" ++ s.imageSrc ++ "\" width=\"" ++
        toString (min W 500) ++ "\" height=\"" ++ toString (min H 300) ++
        "\" style=\"display: block; margin: 0 auto;\"/>") ++ post) := by
  have hne := posterContent_ne_empty_of_image s hsrc
  have himg : imageMarkup s =
      "<img src=\"" ++ s.imageSrc ++ "\" width=\"" ++ toString (min W 500) ++
        "\" height=\"" ++ toString (min H 300) ++
        "\" style=\"display: block; margin: 0 auto;\"/>" := by
    simp [imageMarkup, hW, hH, clampDim_some, datasetString]
  have hsplit : posterContent s =
      (if s.headingText = "" then "" else headingMarkup s) ++
        (("<img src=\"" ++ s.imageSrc ++ "\" width=\"" ++ toString (min W 500) ++
          "\" height=\"" ++ toString (min H 300) ++
          "\" style=\"display: block; margin: 0 auto;\"/>") ++
          (if s.descriptionText = "" then "" else descriptionMarkup s)) := by
    rw [posterContent_eq, if_neg hsrc, himg, String.append_assoc]
  exact ⟨_, _, fragment_decomp s d r hne _ _ _ hsplit⟩

/-- Witness for C1 at the concrete state `fullState` (recorded 1000×800):
both dimensions are clamped. -/
theorem C1_witness :
    ∃ pre post, (downloadPreprocess fullState true (1/2)).fragment =
      some (pre ++ ("<img src=\"" ++ fullState.imageSrc ++ "\" width=\"" ++
        toString (min 1000 500) ++ "\" height=\"" ++ toString (min 800 300) ++
        "\" style=\"display: block; margin: 0 auto;\"/>") ++ post) :=
  C1_image_dims_clamped fullState true (1/2) 1000 800 (by decide) rfl rfl

/-- C2: when heading text is empty, no image payload is present, and
description text is empty, the serializer produces no markup fragment, no
decode is attempted and no download is triggered. -/
theorem C2_empty_state_silent (s : PreviewState) (d : Bool) (r : ℚ)
    (h1 : s.headingText = "") (h2 : s.imageSrc = "")
    (h3 : s.descriptionText = "") :
    posterContent s = "" ∧
    (downloadPreprocess s d r).fragment = none ∧
    (downloadPreprocess s d r).decodeAttempted = false ∧
    (downloadPreprocess s d r).downloadAction = none := by
  have hc : posterContent s = "" := by
    rw [posterContent_eq, if_pos h1, if_pos h2, if_pos h3]
    rfl
  refine ⟨hc, ?_, ?_, ?_⟩ <;> simp [downloadPreprocess, hc]

/-- Witness for C2 at the concrete all-empty state. -/
theorem C2_witness :
    posterContent emptyState = "" ∧
    (downloadPreprocess emptyState true (1/2)).fragment = none ∧
    (downloadPreprocess emptyState true (1/2)).decodeAttempted = false ∧
    (downloadPreprocess emptyState true (1/2)).downloadAction = none :=
  C2_empty_state_silent emptyState true (1/2) rfl rfl rfl

/-- C10 (implicit): the image branch is guarded only by the presence of an
image source; when the source is set but the dataset dimensions were never
recorded, an image element is still emitted and its width/height
attributes carry the JavaScript `undefined` values unclamped. -/
theorem C10_missing_dims_undefined (s : PreviewState) (d : Bool) (r : ℚ)
    (hsrc : s.imageSrc ≠ "") (hW : s.dataWidth = none)
    (hH : s.dataHeight = none) :
    ∃ pre post, (downloadPreprocess s d r).fragment =
      some (pre ++ ("<img src=\"" ++ s.imageSrc ++ "\" width=\"" ++
        "undefined" ++ "\" height=\"" ++ "undefined" ++
        "\" style=\"display: block; margin: 0 auto;\"/>") ++ post) := by
  have hne := posterContent_ne_empty_of_image s hsrc
  have himg : imageMarkup s =
      "<img src=\"" ++ s.imageSrc ++ "\" width=\"" ++ "undefined" ++
        "\" height=\"" ++ "undefined" ++
        "\" style=\"display: block; margin: 0 auto;\"/>" := by
    simp [imageMarkup, hW, hH, clampDim, datasetString]
  have hsplit : posterContent s =
      (if s.headingText = "" then "" else headingMarkup s) ++
        (("<img src=\"" ++ s.imageSrc ++ "\" width=\"" ++ "undefined" ++
          "\" height=\"" ++ "undefined" ++
          "\" style=\"display: block; margin: 0 auto;\"/>") ++
          (if s.descriptionText = "" then "" else descriptionMarkup s)) := by
    rw [posterContent_eq, if_neg hsrc, himg, String.append_assoc]
  exact ⟨_, _, fragment_decomp s d r hne _ _ _ hsplit⟩

/-- Witness for C10 at the concrete state `noDimsState`. -/
theorem C10_witness :
    ∃ pre post, (downloadPreprocess noDimsState true (1/2)).fragment =
      some (pre ++ ("<img src=\"" ++ noDimsState.imageSrc ++ "\" width=\"" ++
        "undefined" ++ "\" height=\"" ++ "undefined" ++
        "\" style=\"display: block; margin: 0 auto;\"/>") ++ post) :=
  C10_missing_dims_undefined noDimsState true (1/2) (by decide) rfl rfl

/-- C3: when a fragment is generated, the download step (anchor handle
with generated filename, activated) runs if and only if the decode of the
fragment succeeds; on a failed decode no handle is created, no raster
payload is produced, and no error is surfaced. -/
theorem C3_download_iff_decode (s : PreviewState) (d : Bool) (r : ℚ)
    (h : posterContent s ≠ "") :
    ((downloadPreprocess s d r).downloadAction = some (download r) ↔ d = true) ∧
    (d = false →
      (downloadPreprocess s d r).downloadAction = none ∧
      (downloadPreprocess s d r).payloadProduced = false ∧
      (downloadPreprocess s d r).errorSurfaced = false) := by
  cases d <;> simp [downloadPreprocess, h]

/-- Witness for C3 at the concrete state `fullState` with a failing
decode. -/
theorem C3_witness :
    ((downloadPreprocess fullState false (1/2)).downloadAction =
        some (download (1/2)) ↔ false = true) ∧
    (false = false →
      (downloadPreprocess fullState false (1/2)).downloadAction = none ∧
      (downloadPreprocess fullState false (1/2)).payloadProduced = false ∧
      (downloadPreprocess fullState false (1/2)).errorSurfaced = false) :=
  C3_download_iff_decode fullState false (1/2) (by decide)

/-- C4: the generated fragment is an SVG container whose width attribute
is the preview container's width and whose height attribute is the
container's height plus 100, and the offscreen canvas is given the same
dimensions. -/
theorem C4_svg_and_canvas_dims (s : PreviewState) (d : Bool) (r : ℚ)
    (h : posterContent s ≠ "") :
    (downloadPreprocess s d r).canvasWidth = s.containerWidth ∧
    (downloadPreprocess s d r).canvasHeight = s.containerHeight + 100 ∧
    ∃ rest, (downloadPreprocess s d r).fragment =
      some ("\n          <svg xmlns=\"http://www.w3.org/2000/svg\" style=\"background-color: white\" width=\"" ++
        toString s.containerWidth ++ "\" height=\"" ++
        toString (s.containerHeight + 100) ++ "\">" ++ rest) := by
  refine ⟨?_, ?_, ?_⟩
  · cases d <;> simp [downloadPreprocess, h]
  · cases d <;> simp [downloadPreprocess, h]
  · refine ⟨"\n            <foreignObject width=\"100%\" height=\"100%\">\n              <div xmlns=\"http://www.w3.org/1999/xhtml\" style=\"font: 12px \x27Arial\x27; padding: 20px;\">\n                " ++
      (posterContent s ++
        "\n              </div>\n            </foreignObject>\n          </svg>\n        "), ?_⟩
    rw [downloadPreprocess_fragment s d r h]
    have h3 : ("\">\n            <foreignObject width=\"100%\" height=\"100%\">\n              <div xmlns=\"http://www.w3.org/1999/xhtml\" style=\"font: 12px \x27Arial\x27; padding: 20px;\">\n                " : String) =
        "\">" ++ "\n            <foreignObject width=\"100%\" height=\"100%\">\n              <div xmlns=\"http://www.w3.org/1999/xhtml\" style=\"font: 12px \x27Arial\x27; padding: 20px;\">\n                " := rfl
    simp only [svgWrap]
    rw [h3]
    simp only [String.append_assoc]

/-- Witness for C4 at the concrete state `fullState`. -/
theorem C4_witness :
    (downloadPreprocess fullState true (1/2)).canvasWidth =
      fullState.containerWidth ∧
    (downloadPreprocess fullState true (1/2)).canvasHeight =
      fullState.containerHeight + 100 ∧
    ∃ rest, (downloadPreprocess fullState true (1/2)).fragment =
      some ("\n          <svg xmlns=\"http://www.w3.org/2000/svg\" style=\"background-color: white\" width=\"" ++
        toString fullState.containerWidth ++ "\" height=\"" ++
        toString (fullState.containerHeight + 100) ++ "\">" ++ rest) :=
  C4_svg_and_canvas_dims fullState true (1/2) (by decide)

/-- C5: when all three sections are populated, the fragment contains a
heading element, an image element and a paragraph element, opening in
exactly that order. -/
theorem C5_section_order (s : PreviewState) (d : Bool) (r : ℚ)
    (h1 : s.headingText ≠ "") (h2 : s.imageSrc ≠ "")
    (h3 : s.descriptionText ≠ "") :
    ∃ pre a b c post, (downloadPreprocess s d r).fragment =
      some (pre ++ ("<h1" ++ a) ++ ("<img" ++ b) ++ ("<p" ++ c) ++ post) := by
  have hne : posterContent s ≠ "" := posterContent_ne_empty_of_image s h2
  have hcontent : posterContent s =
      headingMarkup s ++ imageMarkup s ++ descriptionMarkup s := by
    rw [posterContent_eq, if_neg h1, if_neg h2, if_neg h3]
  refine ⟨"\n          <svg xmlns=\"http://www.w3.org/2000/svg\" style=\"background-color: white\" width=\"" ++
      toString s.containerWidth ++ "\" height=\"" ++
      toString (s.containerHeight + 100) ++
      "\">\n            <foreignObject width=\"100%\" height=\"100%\">\n              <div xmlns=\"http://www.w3.org/1999/xhtml\" style=\"font: 12px \x27Arial\x27; padding: 20px;\">\n                ",
    " style=\"text-align: " ++ s.headingAlignment ++ "; color: " ++
      s.headingColor ++ "; font-size: " ++ s.headingFontSize ++
      "; font-weigth: 400;\">" ++ s.headingText ++ "</h1>",
    " src=\"" ++ s.imageSrc ++ "\" width=\"" ++
      datasetString (clampDim s.dataWidth 500) ++ "\" height=\"" ++
      datasetString (clampDim s.dataHeight 300) ++
      "\" style=\"display: block; margin: 0 auto;\"/>",
    " style=\"white-space: pre-wrap;\">" ++ s.descriptionText ++ "</p>",
    "\n              </div>\n            </foreignObject>\n          </svg>\n        ", ?_⟩
  rw [downloadPreprocess_fragment s d r hne, hcontent]
  have e1 : ("<h1 style=\"text-align: " : String) =
      "<h1" ++ " style=\"text-align: " := rfl
  have e2 : ("<img src=\"" : String) = "<img" ++ " src=\"" := rfl
  have e3 : ("<p style=\"white-space: pre-wrap;\">" : String) =
      "<p" ++ " style=\"white-space: pre-wrap;\">" := rfl
  simp only [svgWrap, headingMarkup, imageMarkup, descriptionMarkup,
    getHeadingComputedStyle]
  rw [e1, e2, e3]
  simp only [String.append_assoc]

/-- Witness for C5 at the concrete state `fullState`. -/
theorem C5_witness :
    ∃ pre a b c post, (downloadPreprocess fullState true (1/2)).fragment =
      some (pre ++ ("<h1" ++ a) ++ ("<img" ++ b) ++ ("<p" ++ c) ++ post) :=
  C5_section_order fullState true (1/2) (by decide) (by decide) (by decide)

/-- C6: the serializer is deterministic and idempotent: the fragment does
not depend on the random draw (randomness enters only at download time),
and re-running the pipeline on the unchanged resulting state yields the
identical fragment. -/
theorem C6_serializer_deterministic (s : PreviewState) (d : Bool)
    (r1 r2 : ℚ) :
    (downloadPreprocess s d r1).fragment =
      (downloadPreprocess s d r2).fragment ∧
    (downloadPreprocess (downloadPreprocess s d r1).finalState d r2).fragment =
      (downloadPreprocess s d r1).fragment := by
  rw [downloadPreprocess_finalState]
  constructor <;> by_cases h : posterContent s = "" <;> cases d <;>
    simp [downloadPreprocess, h]

/-- C7: the serializer emits the image element as a properly self-closed
tag, and that very string is embedded verbatim in the returned fragment —
no post-hoc patching of the fragment inserts the closing slash. -/
theorem C7_self_closed_img (s : PreviewState) (d : Bool) (r : ℚ)
    (hsrc : s.imageSrc ≠ "") :
    imageMarkup s =
      "<img " ++ ("src=\"" ++ s.imageSrc ++ "\" width=\"" ++
        datasetString (clampDim s.dataWidth 500) ++ "\" height=\"" ++
        datasetString (clampDim s.dataHeight 300) ++
        "\" style=\"display: block; margin: 0 auto;\"") ++ "/>" ∧
    ∃ pre post, (downloadPreprocess s d r).fragment =
      some (pre ++ imageMarkup s ++ post) := by
  have hne := posterContent_ne_empty_of_image s hsrc
  constructor
  · have e4 : ("<img src=\"" : String) = "<img " ++ "src=\"" := rfl
    have e5 : ("\" style=\"display: block; margin: 0 auto;\"/>" : String) =
        "\" style=\"display: block; margin: 0 auto;\"" ++ "/>" := rfl
    simp only [imageMarkup]
    rw [e4, e5]
    simp only [String.append_assoc]
  · have hsplit : posterContent s =
        (if s.headingText = "" then "" else headingMarkup s) ++
          (imageMarkup s ++
            (if s.descriptionText = "" then "" else descriptionMarkup s)) := by
      rw [posterContent_eq, if_neg hsrc, String.append_assoc]
    exact ⟨_, _, fragment_decomp s d r hne _ _ _ hsplit⟩

/-- Witness for C7 at the concrete state `fullState`. -/
theorem C7_witness :
    imageMarkup fullState =
      "<img " ++ ("src=\"" ++ fullState.imageSrc ++ "\" width=\"" ++
        datasetString (clampDim fullState.dataWidth 500) ++ "\" height=\"" ++
        datasetString (clampDim fullState.dataHeight 300) ++
        "\" style=\"display: block; margin: 0 auto;\"") ++ "/>" ∧
    ∃ pre post, (downloadPreprocess fullState true (1/2)).fragment =
      some (pre ++ imageMarkup fullState ++ post) :=
  C7_self_closed_img fullState true (1/2) (by decide)

/-- C8: the export pipeline does not mutate the preview state; in
particular the recorded dataset dimensions are only read, and a second
export run reclamps from the original recorded size, producing the same
fragment. -/
theorem C8_no_state_mutation (s : PreviewState) (d : Bool) (r : ℚ) :
    (downloadPreprocess s d r).finalState = s ∧
    (downloadPreprocess s d r).finalState.dataWidth = s.dataWidth ∧
    (downloadPreprocess s d r).finalState.dataHeight = s.dataHeight ∧
    (downloadPreprocess (downloadPreprocess s d r).finalState d r).fragment =
      (downloadPreprocess s d r).fragment := by
  have hf := downloadPreprocess_finalState s d r
  exact ⟨hf, by rw [hf], by rw [hf], by rw [hf]⟩

/-- C9: for any `Math.random()` draw `r ∈ [0, 1)`, the generated filename
has the form `Poster_<n>.png` with `n` an integer between 0 and 99999999
inclusive. -/
theorem C9_filename_form (r : ℚ) (h0 : 0 ≤ r) (h1 : r < 1) :
    ∃ n : ℕ, n ≤ 99999999 ∧
      (download r).filename = "Poster_" ++ toString n ++ ".png" := by
  have hnn : 0 ≤ Int.floor (r * 100000000) :=
    Int.floor_nonneg.mpr (mul_nonneg h0 (by norm_num))
  have hlt : Int.floor (r * 100000000) < 100000000 := by
    have h2 : r * 100000000 < 100000000 := by nlinarith
    exact Int.floor_lt.mpr (by exact_mod_cast h2)
  refine ⟨(Int.floor (r * 100000000)).toNat, by omega, ?_⟩
  simp only [download]
  rw [int_toString_toNat _ hnn]

/-- Witness for C9 at the draw `r = 0`. -/
theorem C9_witness :
    ∃ n : ℕ, n ≤ 99999999 ∧
      (download 0).filename = "Poster_" ++ toString n ++ ".png" :=
  C9_filename_form 0 (le_refl 0) zero_lt_one
